import Mathlib

/-!
Shallow embedding of the query-construction and persistence-utility layer of
the faraday repository: `faraday/server/utils/database.py` and the alembic
migration `384784872dc1_add_weight_column_in_role.py`.

SQLAlchemy filter expressions are modelled as an abstract syntax tree
(`SqlFilter`); a `Query` records the filter, ordering, limit and offset
operations applied to it.  Python dictionaries are modelled as association
lists (keeping insertion order, as Python dictionaries do), `None` as
`Option.none`, and exceptions as `Except String`.
-/

namespace Faraday

/-- The SQL type of a mapped column; `boolean` mirrors `sqlalchemy.Boolean`,
every other column type is treated as a string-like column (the code only
distinguishes Boolean columns). -/
inductive ColType where
  | boolean
  | stringLike
deriving DecidableEq, Repr

/-- A mapped ORM column: a name together with its SQL type. -/
structure Column where
  name : String
  type : ColType
deriving DecidableEq, Repr

/-- An entry of `field_to_col_map`: either a real column or a string label
(labels refer to query-built values and are skipped by the search code). -/
inductive ColEntry where
  | label (s : String)
  | col (c : Column)
deriving DecidableEq, Repr

/-- Abstract syntax of the SQL filter expressions the code builds:
`column.like(s)`, `column.is_(True)`, `column.is_(False)`,
`column.is_(None)`, `column.op('=')(v)` and the `&` / `|` combinators. -/
inductive SqlFilter where
  | like (c : Column) (pattern : String)
  | isTrue (c : Column)
  | isFalse (c : Column)
  | isNull (c : Column)
  | eq (c : Column) (value : String)
  | and (l r : SqlFilter)
  | or (l r : SqlFilter)
deriving DecidableEq, Repr

/-- An ordering expression: `asc(col)`, `desc(col)`, or a bare expression
(used for the `default` argument of `sort_results`). -/
inductive OrderExpr where
  | asc (c : Column)
  | desc (c : Column)
  | plain (c : Column)
deriving DecidableEq, Repr

/-- The query object: records which filters, ordering criteria, limit and
offset have been applied. -/
structure Query where
  filters : List SqlFilter := []
  order : List OrderExpr := []
  limitVal : Option Int := none
  offsetVal : Option Int := none
deriving DecidableEq, Repr

def Query.filter (q : Query) (f : SqlFilter) : Query :=
  { q with filters := q.filters ++ [f] }

def Query.order_by (q : Query) (os : List OrderExpr) : Query :=
  { q with order := q.order ++ os }

def Query.limit (q : Query) (n : Int) : Query :=
  { q with limitVal := some n }

def Query.offset (q : Query) (n : Int) : Query :=
  { q with offsetVal := some n }

/-- Embedding of `paginate(query, page, page_size)`: raises `ValueError` unless
`page >= 0 and page_size >= 0`, otherwise applies
`query.limit(page_size).offset(page * page_size)`. -/
def paginate (query : Query) (page page_size : Int) : Except String Query :=
  if ¬(page ≥ 0 ∧ page_size ≥ 0) then
    Except.error "Invalid values for pagination"
  else
    Except.ok ((query.limit page_size).offset (page * page_size))

/-- Python truthiness of an optional list (`None` and `[]` are falsy). -/
def listTruthy {α : Type} : Option (List α) → Bool
  | Option.none => false
  | some l => !l.isEmpty

/-- Embedding of `sort_results(query, field_to_col_map, order_field, order_dir, default)`:
orders by all the columns mapped under `order_field` in the requested
direction when the direction is `'asc'` or `'desc'` and the mapped column
list is truthy, otherwise falls back to the `default` ordering (or leaves
the query unchanged when there is none). -/
def sort_results (query : Query) (field_to_col_map : List (String × List Column))
    (order_field order_dir : String) (default : Option OrderExpr) : Query :=
  let order_cols := field_to_col_map.lookup order_field
  if listTruthy order_cols ∧ (order_dir = "asc" ∨ order_dir = "desc") then
    let dir_func := if order_dir = "asc" then OrderExpr.asc else OrderExpr.desc
    query.order_by ((order_cols.getD []).map dir_func)
  else
    match default with
    | some d => query.order_by [d]
    | Option.none => query

/-- Embedding of `concat_search_terms(left, right, operator)`: `None` is passed through,
two present filters are combined with `&` for `'and'`, `|` for `'or'`, and
any other operator yields `None`. -/
def concat_search_terms (sql_filter_left sql_filter_right : Option SqlFilter)
    (op : String) : Option SqlFilter :=
  match sql_filter_left, sql_filter_right with
  | Option.none, Option.none => Option.none
  | Option.none, some r => some r
  | some l, Option.none => some l
  | some l, some r =>
    if op = "and" then some (SqlFilter.and l r)
    else if op = "or" then some (SqlFilter.or l r)
    else Option.none

def concat_and_search_term (left right : Option SqlFilter) : Option SqlFilter :=
  concat_search_terms left right "and"

def concat_or_search_term (left right : Option SqlFilter) : Option SqlFilter :=
  concat_search_terms left right "or"

/-- Embedding of `prepare_boolean_filter(column, search_term)`: `'true'`/`'1'` become
`column IS TRUE`, `'false'`/`'0'` become `(column IS FALSE) OR (column IS
NULL)`, anything else becomes `None`. -/
def prepare_boolean_filter (column : Column) (search_term : String) : Option SqlFilter :=
  if search_term = "true" ∨ search_term = "1" then
    some (SqlFilter.isTrue column)
  else if search_term = "false" ∨ search_term = "0" then
    some (SqlFilter.or (SqlFilter.isFalse column) (SqlFilter.isNull column))
  else
    Option.none

/-- Python truthiness of the optional `free_text_search` string
(`None` and `''` are falsy). -/
def truthyStr : Option String → Bool
  | Option.none => false
  | some s => !(s = "")

/-- Python `str.lower()` (ASCII case folding, as `Char.toLower` performs). -/
def pyLower (s : String) : String :=
  String.mk (s.toList.map Char.toLower)

/-- The inner loop of `apply_search_filter` over one entry of
`field_to_col_map.get(attrName)`: string labels are skipped; a direct
filter on a Boolean column goes through `prepare_boolean_filter` on the
lowercased value; a direct strict filter uses `column.op('=')`; everything
else uses `column.like(like_str)`. -/
def column_term (is_direct : Bool) (attrName : String)
    (field_filter : List (String × String)) (strict_filter : List String)
    (like_str : String) (column : ColEntry) : Option SqlFilter :=
  match column with
  | ColEntry.label _ => Option.none
  | ColEntry.col c =>
    if is_direct ∧ c.type = ColType.boolean then
      prepare_boolean_filter c (pyLower ((field_filter.lookup attrName).getD ""))
    else if is_direct ∧ attrName ∈ strict_filter then
      some (SqlFilter.eq c ((field_filter.lookup attrName).getD ""))
    else
      some (SqlFilter.like c like_str)

/-- One iteration of `apply_search_filter`'s loop over `field_to_col_map`:
the accumulator is the pair `(fts_sql_filter, dfs_sql_filter)`. -/
def search_step (free_text_search : Option String)
    (field_filter : List (String × String)) (strict_filter : List String)
    (acc : Option SqlFilter × Option SqlFilter) (entry : String × List ColEntry) :
    Option SqlFilter × Option SqlFilter :=
  let attrName := entry.1
  if (field_filter.lookup attrName).isSome then
    let like_str := "%" ++ (field_filter.lookup attrName).getD "" ++ "%"
    let term := entry.2.foldl
      (fun a col =>
        concat_or_search_term a (column_term true attrName field_filter strict_filter like_str col))
      Option.none
    (acc.1, concat_and_search_term acc.2 term)
  else if truthyStr free_text_search then
    let like_str := "%" ++ free_text_search.getD "" ++ "%"
    let term := entry.2.foldl
      (fun a col =>
        concat_or_search_term a (column_term false attrName field_filter strict_filter like_str col))
      Option.none
    (concat_or_search_term acc.1 term, acc.2)
  else
    acc

/-- Embedding of `apply_search_filter(query, field_to_col_map, free_text_search,
field_filter, strict_filter)`: raises `ValueError` when some `field_filter`
key is not mapped, otherwise folds `search_step` over the mapping, joins the
free-text filter and the direct filter with `and`, and applies the result to
the query (or returns the query untouched when the combined filter is
`None`). -/
def apply_search_filter (query : Query) (field_to_col_map : List (String × List ColEntry))
    (free_text_search : Option String) (field_filter : List (String × String))
    (strict_filter : List String) : Except String Query :=
  if (field_filter.map Prod.fst).any (fun attr => (field_to_col_map.lookup attr).isNone) then
    Except.error "Invalid field to filter"
  else
    let acc := field_to_col_map.foldl (search_step free_text_search field_filter strict_filter)
      (Option.none, Option.none)
    match concat_and_search_term acc.1 acc.2 with
    | some f => Except.ok (query.filter f)
    | Option.none => Except.ok query

/-! ### `get_or_create` -/

/-- A keyword-argument value: a plain value or a SQLAlchemy `ClauseElement`
(clause values are excluded from the constructor parameters). -/
inductive KwVal where
  | plain (s : String)
  | clause (f : SqlFilter)
deriving DecidableEq, Repr

def KwVal.isClause : KwVal → Bool
  | KwVal.clause _ => true
  | KwVal.plain _ => false

/-- A model instance / stored row, as the mapping from attribute names to
values (Python keeps keyword insertion order, so we use an association
list). -/
abbrev PyRec := List (String × KwVal)

/-- Embedding of `session.query(model).filter_by(**kwargs)` match predicate: every kwarg
equals the record's attribute of the same name. -/
def recMatches (kwargs : PyRec) (r : PyRec) : Bool :=
  kwargs.all (fun kv => r.lookup kv.1 == some kv.2)

/-- Python `dict[k] = v`: replace in place when the key exists, append
otherwise. -/
def dictInsert (d : PyRec) (k : String) (v : KwVal) : PyRec :=
  if (d.lookup k).isSome then
    d.map (fun kv => if kv.1 = k then (k, v) else kv)
  else
    d ++ [(k, v)]

/-- Python `d.update(upd)`. -/
def dictUpdate (d upd : PyRec) : PyRec :=
  upd.foldl (fun a kv => dictInsert a kv.1 kv.2) d

/-- Embedding of `get_or_create(session, model, defaults, **kwargs)`: returns the first
matching record with `False`, or constructs the instance from the non-clause
kwargs updated with `defaults or dict()`, adds it to the session and returns it
with `True`.  The session is its list of stored records; the model's
constructor builds the record from the parameter dictionary. -/
def get_or_create (session : List PyRec) (defaults : Option PyRec)
    (kwargs : PyRec) : List PyRec × PyRec × Bool :=
  match session.find? (recMatches kwargs) with
  | some inst => (session, inst, false)
  | Option.none =>
    let params := dictUpdate (kwargs.filter (fun kv => !kv.2.isClause)) (defaults.getD [])
    (session ++ [params], params, true)

/-! ### `get_object_type_for`, `get_unique_fields`, `get_conflict_object` -/

/-- A Python value as seen by the conflict-detection code: `None`, a string,
an integer, or a related model object carrying an optional `id`. -/
inductive PyValue where
  | none
  | str (s : String)
  | int (n : Int)
  | obj (oid : Option Int)
deriving DecidableEq, Repr

/-- Python truthiness of a `PyValue`. -/
def PyValue.truthy : PyValue → Bool
  | PyValue.none => false
  | PyValue.str s => !(s = "")
  | PyValue.int n => !(n = 0)
  | PyValue.obj _ => true

/-- A model instance for conflict detection: its `__tablename__`, its class
name and its attributes. -/
structure ModelInstance where
  tablename : Option String
  className : String
  attrs : List (String × PyValue)
deriving DecidableEq, Repr

/-- Embedding of `get_object_type_for(instance)`: the table name, or `'vulnerability'`
for the vulnerability classes whose `__tablename__` is `None`; otherwise a
`RuntimeError`. -/
def get_object_type_for (inst : ModelInstance) : Except String String :=
  match inst.tablename with
  | some t => Except.ok t
  | Option.none =>
    if inst.className ∈ ["Vulnerability", "VulnerabilityWeb", "VulnerabilityCode"] then
      Except.ok "vulnerability"
    else
      Except.error "Unknown table for object"

/-- A reflected unique constraint (`Inspector.get_unique_constraints`
entry). -/
structure UniqueConstraint where
  column_names : List String
deriving DecidableEq, Repr

/-- The hard-coded unique index of the `vulnerability` table. -/
def vulnerability_unique_columns : List String :=
  ["name", "description", "type", "host_id", "service_id", "method",
   "parameter_name", "path", "website", "workspace_id"]

/-- Embedding of `get_unique_fields(session, instance)`: the `column_names` of the
reflected unique constraints of the instance's table, except that for
`'vulnerability'` the single hard-coded constraint is used.  The database
inspector is abstracted as a function from table name to constraints. -/
def get_unique_fields (inspector : String → List UniqueConstraint)
    (inst : ModelInstance) : Except String (List (List String)) := do
  let table_name ← get_object_type_for inst
  let unique_constraints :=
    if table_name ≠ "vulnerability" then inspector table_name
    else [⟨vulnerability_unique_columns⟩]
  return unique_constraints.map UniqueConstraint.column_names

/-- A stored database row: column name to value; absent columns read as
SQL NULL. -/
abbrev DbRec := List (String × PyValue)

def DbRec.col (r : DbRec) (name : String) : PyValue :=
  (r.lookup name).getD PyValue.none

/-- Column metadata of a mapped table: the column name and the optional
`column.default.arg`. -/
structure ColumnMeta where
  name : String
  defaultArg : Option PyValue
deriving DecidableEq, Repr

/-- The database session as the conflict-detection code uses it: the
reflection inspector, each mapped class's table columns, and each mapped
class's stored rows. -/
structure DBSession where
  inspector : String → List UniqueConstraint
  tableColumns : String → List ColumnMeta
  records : String → List DbRec

/-- A SQL condition in the conjunction built by `get_conflict_object`. -/
inductive Cond where
  | eqv (colName : String) (v : PyValue)
  | inVals (colName : String) (vs : List PyValue)
deriving DecidableEq, Repr

/-- SQL three-valued equality collapsed to a match test: a comparison
against NULL never matches. -/
def sqlEq : PyValue → PyValue → Bool
  | PyValue.none, _ => false
  | _, PyValue.none => false
  | a, b => a == b

def Cond.eval (r : DbRec) : Cond → Bool
  | Cond.eqv c v => sqlEq (r.col c) v
  | Cond.inVals c vs => vs.any (fun v => sqlEq (r.col c) v)

/-- Python `s.endswith(suffix)`. -/
def pyEndsWith (s suffix : String) : Bool :=
  suffix.toList.isSuffixOf s.toList

/-- Helper for Python `str.strip(chars)`: drop the leading characters that
belong to `cs`. -/
def stripLeftChars : List Char → List Char → List Char
  | [], _ => []
  | c :: rest, cs => if c ∈ cs then stripLeftChars rest cs else c :: rest

/-- Python `s.strip(chars)`: remove any of the characters of `chars` from
both ends of `s`. -/
def pyStrip (s chars : String) : String :=
  let l := stripLeftChars s.toList chars.toList
  String.mk (stripLeftChars l.reverse chars.toList).reverse

/-- Python `getattr(obj, name)`: `AttributeError` when absent. -/
def getattrOf (inst : ModelInstance) (name : String) : Except String PyValue :=
  match inst.attrs.lookup name with
  | some v => Except.ok v
  | Option.none => Except.error "AttributeError"

/-- Embedding of `table.columns[name]`: `KeyError` when the column does not exist. -/
def tableColumn (cols : List ColumnMeta) (name : String) : Except String ColumnMeta :=
  match cols.find? (fun c => c.name = name) with
  | some c => Except.ok c
  | Option.none => Except.error "KeyError"

/-- The value `get_conflict_object` compares a non-relation unique field
against: `data[field]`, falling back to `getattr(obj, field)`, replaced by
the column default when the attribute is falsy and a default exists. -/
def uniqueFieldValue (obj : ModelInstance) (data : List (String × PyValue))
    (column : ColumnMeta) (field : String) : Except String PyValue :=
  match data.lookup field with
  | some v => Except.ok v
  | Option.none => do
    let v ← getattrOf obj field
    match column.defaultArg with
    | some d => if !v.truthy then return d else return v
    | Option.none => return v

/-- Embedding of `get_conflict_object(session, obj, data, workspace, ids)`: for the first
unique-constraint column set of the object's table, build equality
conditions for the non-`_id` columns from `data`/the object (skipping
`None` values), handle `workspace_id` from the given workspace or from the
workspaces of the records with the given ids, add the remaining relation
ids, and return the first stored record satisfying the conjunction (or
`None` when there are no conditions or no constraints). -/
def get_conflict_object (session : DBSession) (obj : ModelInstance)
    (data : List (String × PyValue)) (workspace : Option Int)
    (ids : Option (List Int)) : Except String (Option DbRec) := do
  let ufs ← get_unique_fields session.inspector obj
  match ufs with
  | [] => return Option.none
  | unique_fields0 :: _ =>
    let relations_fields0 := unique_fields0.filter (fun f => pyEndsWith f "_id")
    let unique_fields := unique_fields0.filter (fun f => !pyEndsWith f "_id")
    let ty ← get_object_type_for obj
    let klassName := if ty = "vulnerability" then "VulnerabilityGeneric" else obj.className
    let cols := session.tableColumns klassName
    let filter_data ← unique_fields.foldlM
      (fun (acc : List Cond) field => do
        let column ← tableColumn cols field
        let value ← uniqueFieldValue obj data column field
        if value ≠ PyValue.none then
          return acc ++ [Cond.eqv field value]
        else
          return acc)
      ([] : List Cond)
    let step2 ←
      if "workspace_id" ∈ relations_fields0 then do
        let rf := relations_fields0.erase "workspace_id"
        match workspace with
        | some wid => pure (rf, filter_data ++ [Cond.eqv "workspace_id" (PyValue.int wid)])
        | Option.none =>
          match ids with
          | Option.none => throw "TypeError"
          | some idlist =>
            let wids := (session.records klassName).filterMap
              (fun r =>
                if (idlist.map PyValue.int).contains (r.col "id") then
                  some (r.col "workspace_id")
                else
                  Option.none)
            pure (rf, filter_data ++ [Cond.inVals "workspace_id" wids])
      else
        pure (relations_fields0, filter_data)
    let filter_data ← step2.1.foldlM
      (fun (acc : List Cond) rf => do
        if (data.lookup rf).isNone ∧ (data.lookup (pyStrip rf "_id")).isSome then
          match data.lookup (pyStrip rf "_id") with
          | some (PyValue.obj (some oid)) => return acc ++ [Cond.eqv rf (PyValue.int oid)]
          | some (PyValue.obj Option.none) => throw "AssertionError"
          | some _ => throw "AttributeError"
          | Option.none => return acc
        else
          let relation_id := (data.lookup rf).getD PyValue.none
          if relation_id.truthy then
            return acc ++ [Cond.eqv rf relation_id]
          else
            return acc)
      step2.2
    if filter_data ≠ [] then
      return (session.records klassName).find? (fun r => filter_data.all (fun c => c.eval r))
    else
      return Option.none

/-! ### The migration `384784872dc1_add_weight_column_in_role` -/

/-- A schema column of a migrated table. -/
structure ColumnDef where
  name : String
  ctype : String
  nullable : Bool
deriving DecidableEq, Repr

/-- A table under migration: its schema columns and its rows. -/
structure TableSt where
  cols : List ColumnDef
  rows : List DbRec
deriving DecidableEq, Repr

/-- The database under migration: tables by name. -/
structure DB where
  tables : List (String × TableSt)
deriving DecidableEq, Repr

def DB.modifyTable (db : DB) (name : String) (f : TableSt → TableSt) : DB :=
  ⟨db.tables.map (fun t => if t.1 = name then (t.1, f t.2) else t)⟩

/-- Python `dict[k] = v` on a row. -/
def DbRec.set (r : DbRec) (k : String) (v : PyValue) : DbRec :=
  if (r.lookup k).isSome then
    r.map (fun kv => if kv.1 = k then (k, v) else kv)
  else
    r ++ [(k, v)]

/-- Embedding of `op.add_column(table, column)`: appended to the schema, NULL in every
existing row. -/
def add_column (db : DB) (table : String) (col : ColumnDef) : DB :=
  db.modifyTable table
    (fun t => ⟨t.cols ++ [col], t.rows.map (fun r => r ++ [(col.name, PyValue.none)])⟩)

/-- Embedding of `UPDATE table SET weight=w WHERE name='n'`. -/
def update_weight_where_name (db : DB) (table : String) (w : Int) (n : String) : DB :=
  db.modifyTable table
    (fun t => ⟨t.cols,
      t.rows.map (fun r =>
        if sqlEq (r.col "name") (PyValue.str n) then r.set "weight" (PyValue.int w) else r)⟩)

/-- Embedding of `op.alter_column(table, col, nullable=b)`. -/
def alter_column_nullable (db : DB) (table colName : String) (nullable : Bool) : DB :=
  db.modifyTable table
    (fun t => ⟨t.cols.map (fun c => if c.name = colName then { c with nullable := nullable } else c),
      t.rows⟩)

/-- Embedding of `op.drop_column(table, col)`. -/
def drop_column (db : DB) (table colName : String) : DB :=
  db.modifyTable table
    (fun t => ⟨t.cols.filter (fun c => c.name ≠ colName),
      t.rows.map (fun r => r.filter (fun kv => kv.1 ≠ colName))⟩)

/-- Embedding of `upgrade()` of revision 384784872dc1. -/
def upgrade (db : DB) : DB :=
  let db1 := add_column db "faraday_role" ⟨"weight", "Integer", true⟩
  let db2 := update_weight_where_name db1 "faraday_role" 40 "admin"
  let db3 := update_weight_where_name db2 "faraday_role" 30 "asset_owner"
  let db4 := update_weight_where_name db3 "faraday_role" 20 "pentester"
  let db5 := update_weight_where_name db4 "faraday_role" 10 "client"
  alter_column_nullable db5 "faraday_role" "weight" false

/-- Embedding of `downgrade()` of revision 384784872dc1. -/
def downgrade (db : DB) : DB :=
  drop_column db "faraday_role" "weight"

/-! ### Statement helpers -/

/-- A valuation of the atomic filter predicates (how a given row satisfies
`LIKE`, `IS TRUE`, `IS FALSE`, `IS NULL` and `=` atoms). -/
structure Valuation where
  likeV : Column → String → Bool
  trueV : Column → Bool
  falseV : Column → Bool
  nullV : Column → Bool
  eqV : Column → String → Bool

/-- Evaluation of a filter tree under a valuation of its atoms. -/
def SqlFilter.eval (v : Valuation) : SqlFilter → Bool
  | SqlFilter.like c p => v.likeV c p
  | SqlFilter.isTrue c => v.trueV c
  | SqlFilter.isFalse c => v.falseV c
  | SqlFilter.isNull c => v.nullV c
  | SqlFilter.eq c s => v.eqV c s
  | SqlFilter.and l r => l.eval v && r.eval v
  | SqlFilter.or l r => l.eval v || r.eval v

/-- Evaluation of an optional filter (`None` never matches). -/
def optEval (v : Valuation) : Option SqlFilter → Bool
  | Option.none => false
  | some f => f.eval v

/-- The real (non-label) column of a `field_to_col_map` entry, if any. -/
def entryToCol : ColEntry → Option Column
  | ColEntry.label _ => Option.none
  | ColEntry.col c => some c

/-- All non-label columns configured in a `field_to_col_map`, in order. -/
def nonLabelCols (m : List (String × List ColEntry)) : List Column :=
  m.flatMap (fun e => e.2.filterMap entryToCol)

/-- The weight the migration assigns, as a function of the `name` value. -/
def roleWeightValue (v : PyValue) : PyValue :=
  if sqlEq v (PyValue.str "admin") then PyValue.int 40
  else if sqlEq v (PyValue.str "asset_owner") then PyValue.int 30
  else if sqlEq v (PyValue.str "pentester") then PyValue.int 20
  else if sqlEq v (PyValue.str "client") then PyValue.int 10
  else PyValue.none

/-- The column metadata of the `VulnerabilityGeneric` table restricted to
the unique-index columns (no column defaults). -/
def vulnColumnsMeta : List ColumnMeta :=
  vulnerability_unique_columns.map (fun n => ⟨n, Option.none⟩)

/-! ### Basic lemmas -/

theorem concat_or_none_right (a : Option SqlFilter) : concat_or_search_term a Option.none = a := by
  cases a <;> rfl

theorem concat_and_none_right (a : Option SqlFilter) : concat_and_search_term a Option.none = a := by
  cases a <;> rfl

theorem optEval_concat_or (v : Valuation) (a b : Option SqlFilter) :
    optEval v (concat_or_search_term a b) = (optEval v a || optEval v b) := by
  cases a <;> cases b <;>
    simp [concat_or_search_term, concat_search_terms, optEval, SqlFilter.eval]

theorem concat_or_eq_none_iff (a b : Option SqlFilter) :
    concat_or_search_term a b = Option.none ↔ (a = Option.none ∧ b = Option.none) := by
  cases a <;> cases b <;>
    simp [concat_or_search_term, concat_search_terms]

/-! ### Claim theorems -/

/-- Claim C7: `paginate` raises `ValueError` exactly when `page < 0` or
`page_size < 0`; otherwise it returns the query limited to `page_size` rows
with an offset of `page * page_size` rows. -/
theorem paginate_spec (q : Query) (page page_size : Int) :
    ((page < 0 ∨ page_size < 0) ↔
      paginate q page page_size = Except.error "Invalid values for pagination") ∧
    (0 ≤ page → 0 ≤ page_size →
      paginate q page page_size =
        Except.ok { q with limitVal := some page_size, offsetVal := some (page * page_size) }) := by
  refine ⟨⟨fun h => ?_, fun h => ?_⟩, fun hp hps => ?_⟩
  · simp only [paginate, if_pos (show ¬(page ≥ 0 ∧ page_size ≥ 0) by omega)]
  · by_contra hc
    push_neg at hc
    rw [paginate, if_neg (show ¬¬(page ≥ 0 ∧ page_size ≥ 0) by omega)] at h
    exact absurd h (by simp)
  · rw [paginate, if_neg (show ¬¬(page ≥ 0 ∧ page_size ≥ 0) by omega)]
    rfl

/-- Witness for C7 at `page = 2`, `page_size = 5`. -/
theorem paginate_spec_witness :
    paginate {} 2 5 = Except.ok { limitVal := some 5, offsetVal := some 10 } :=
  (paginate_spec {} 2 5).2 (by decide) (by decide)

/-- Claim C9: `concat_search_terms` treats `None` as identity on either
side, combines two present filters with `and`/`or` according to the
operator, and returns `None` for any other operator. -/
theorem concat_search_terms_spec :
    (∀ (f : SqlFilter) (op : String),
      concat_search_terms (some f) Option.none op = some f ∧
      concat_search_terms Option.none (some f) op = some f) ∧
    (∀ op : String, concat_search_terms Option.none Option.none op = Option.none) ∧
    (∀ a b : SqlFilter,
      concat_search_terms (some a) (some b) "and" = some (SqlFilter.and a b) ∧
      concat_search_terms (some a) (some b) "or" = some (SqlFilter.or a b)) ∧
    (∀ (a b : SqlFilter) (op : String), op ≠ "and" → op ≠ "or" →
      concat_search_terms (some a) (some b) op = Option.none) := by
  refine ⟨fun f op => ⟨rfl, rfl⟩, fun op => rfl, fun a b => ⟨rfl, rfl⟩,
    fun a b op h1 h2 => ?_⟩
  simp [concat_search_terms, h1, h2]

/-- Witness for C9: the unknown operator `'xor'` on two present filters. -/
theorem concat_search_terms_spec_witness :
    concat_search_terms (some (SqlFilter.isNull ⟨"c", ColType.stringLike⟩))
      (some (SqlFilter.isTrue ⟨"c", ColType.boolean⟩)) "xor" = Option.none :=
  concat_search_terms_spec.2.2.2 _ _ "xor" (by decide) (by decide)

/-- Claim C3: a direct field filter on a Boolean column is normalized
case-insensitively through `prepare_boolean_filter` of the lowercased
value: `'true'`/`'1'` give `column IS TRUE`, `'false'`/`'0'` give
`(column IS FALSE) OR (column IS NULL)`, and any other value makes the
column's filter `None`, which the `or`-concatenation ignores. -/
theorem boolean_filter_normalization (c : Column) (attrName : String)
    (field_filter : List (String × String)) (strict_filter : List String)
    (like_str v : String)
    (hbool : c.type = ColType.boolean)
    (hv : field_filter.lookup attrName = some v) :
    column_term true attrName field_filter strict_filter like_str (ColEntry.col c) =
      prepare_boolean_filter c (pyLower v) ∧
    ((pyLower v = "true" ∨ pyLower v = "1") →
      prepare_boolean_filter c (pyLower v) = some (SqlFilter.isTrue c)) ∧
    ((pyLower v = "false" ∨ pyLower v = "0") →
      prepare_boolean_filter c (pyLower v) =
        some (SqlFilter.or (SqlFilter.isFalse c) (SqlFilter.isNull c))) ∧
    (pyLower v ≠ "true" → pyLower v ≠ "1" → pyLower v ≠ "false" → pyLower v ≠ "0" →
      column_term true attrName field_filter strict_filter like_str (ColEntry.col c) =
        Option.none ∧
      ∀ a : Option SqlFilter,
        concat_or_search_term a
          (column_term true attrName field_filter strict_filter like_str (ColEntry.col c)) = a) := by
  have hc : column_term true attrName field_filter strict_filter like_str (ColEntry.col c) =
      prepare_boolean_filter c (pyLower v) := by
    simp [column_term, hbool, hv]
  refine ⟨hc, fun h => ?_, fun h => ?_, fun h1 h2 h3 h4 => ?_⟩
  · simp [prepare_boolean_filter, h]
  · rcases h with h | h <;> simp [prepare_boolean_filter, h]
  · have hnone : prepare_boolean_filter c (pyLower v) = Option.none := by
      simp [prepare_boolean_filter, h1, h2, h3, h4]
    rw [hc, hnone]
    exact ⟨rfl, concat_or_none_right⟩

/-- Witness for C3: filtering the Boolean column `confirmed` by `'MAYBE'`
is ignored. -/
theorem boolean_filter_normalization_witness :
    column_term true "confirmed" [("confirmed", "MAYBE")] [] "%MAYBE%"
      (ColEntry.col ⟨"confirmed", ColType.boolean⟩) = Option.none :=
  ((boolean_filter_normalization ⟨"confirmed", ColType.boolean⟩ "confirmed"
      [("confirmed", "MAYBE")] [] "%MAYBE%" "MAYBE" rfl (by decide)).2.2.2
    (by decide) (by decide) (by decide) (by decide)).1

/-- Claim C1: when an attribute has an entry in `field_filter`, one loop
iteration of `apply_search_filter` builds the attribute's filter from the
`field_filter` value (wildcarded on both ends), appends it to the direct
filter, and leaves the free-text accumulator untouched — for every value of
`free_text_search`. -/
theorem field_filter_precedence_over_fts (free_text_search : Option String)
    (field_filter : List (String × String)) (strict_filter : List String)
    (f d : Option SqlFilter) (attrName : String) (cols : List ColEntry) (v : String)
    (hv : field_filter.lookup attrName = some v) :
    search_step free_text_search field_filter strict_filter (f, d) (attrName, cols) =
      (f, concat_and_search_term d
        (cols.foldl
          (fun a col =>
            concat_or_search_term a
              (column_term true attrName field_filter strict_filter ("%" ++ v ++ "%") col))
          Option.none)) := by
  simp [search_step, hv]

/-- Witness for C1: a mapped attribute with a field filter ignores a
non-empty free-text term. -/
theorem field_filter_precedence_over_fts_witness :
    search_step (some "fts-term") [("name", "joe")] []
      (Option.none, Option.none) ("name", [ColEntry.col ⟨"name", ColType.stringLike⟩]) =
      (Option.none,
        some (SqlFilter.like ⟨"name", ColType.stringLike⟩ "%joe%")) :=
  field_filter_precedence_over_fts (some "fts-term") [("name", "joe")] []
    Option.none Option.none "name" [ColEntry.col ⟨"name", ColType.stringLike⟩] "joe" (by decide)

/-- Claim C6: `sort_results` orders by every mapped column in the requested
direction when the mapped list is non-empty and the direction is `'asc'` or
`'desc'`; otherwise it falls back to the default ordering when given, and
returns the query unchanged when not. -/
theorem sort_results_spec (q : Query) (m : List (String × List Column))
    (field dir : String) (default : Option OrderExpr) :
    (∀ cols, m.lookup field = some cols → cols ≠ [] → (dir = "asc" ∨ dir = "desc") →
      sort_results q m field dir default =
        q.order_by (cols.map (if dir = "asc" then OrderExpr.asc else OrderExpr.desc))) ∧
    ((m.lookup field = Option.none ∨ m.lookup field = some [] ∨
        (dir ≠ "asc" ∧ dir ≠ "desc")) →
      sort_results q m field dir default =
        match default with
        | some dft => q.order_by [dft]
        | Option.none => q) := by
  constructor
  · intro cols h hne hdir
    have htruthy : listTruthy (some cols) = true := by
      simpa [listTruthy] using hne
    rcases hdir with hd | hd <;> subst hd <;>
      simp [sort_results, h, htruthy]
  · intro h
    rcases h with h | h | h
    · simp [sort_results, h, listTruthy]
    · simp [sort_results, h, listTruthy]
    · simp [sort_results, h.1, h.2]

/-- Witness for C6: descending sort over two mapped columns. -/
theorem sort_results_spec_witness :
    sort_results {} [("severity", [⟨"severity", ColType.stringLike⟩, ⟨"name", ColType.stringLike⟩])]
      "severity" "desc" Option.none =
      Query.order_by {} [OrderExpr.desc ⟨"severity", ColType.stringLike⟩,
        OrderExpr.desc ⟨"name", ColType.stringLike⟩] :=
  (sort_results_spec {} [("severity", [⟨"severity", ColType.stringLike⟩, ⟨"name", ColType.stringLike⟩])]
      "severity" "desc" Option.none).1
    [⟨"severity", ColType.stringLike⟩, ⟨"name", ColType.stringLike⟩]
    (by decide) (by decide) (Or.inr rfl)

/-- Claim C10: `apply_search_filter` raises `ValueError` exactly when some
`field_filter` key is unmapped (returning no filtered query), and succeeds
whenever every key is mapped. -/
theorem invalid_field_filter_spec (q : Query) (m : List (String × List ColEntry))
    (fts : Option String) (ff : List (String × String)) (sf : List String) :
    ((∃ kv ∈ ff, (m.lookup kv.1).isNone) ↔
      apply_search_filter q m fts ff sf = Except.error "Invalid field to filter") ∧
    ((∀ kv ∈ ff, (m.lookup kv.1).isSome) →
      ∃ q' : Query, apply_search_filter q m fts ff sf = Except.ok q') := by
  have hany : ((ff.map Prod.fst).any (fun attr => (m.lookup attr).isNone) = true) ↔
      ∃ kv ∈ ff, (m.lookup kv.1).isNone := by
    simp [List.any_eq_true]
  constructor
  · constructor
    · intro h
      rw [apply_search_filter, if_pos (hany.mpr h)]
    · intro h
      by_contra hc
      rw [apply_search_filter, if_neg (fun hcond => hc (hany.mp hcond))] at h
      revert h
      cases hcc : concat_and_search_term
          ((m.foldl (search_step fts ff sf) (Option.none, Option.none)).1)
          ((m.foldl (search_step fts ff sf) (Option.none, Option.none)).2) <;>
        simp [hcc]
  · intro h
    have hcond : ¬((ff.map Prod.fst).any (fun attr => (m.lookup attr).isNone) = true) := by
      intro hcond
      obtain ⟨kv, hkv, hnone⟩ := hany.mp hcond
      have := h kv hkv
      simp [Option.isNone_iff_eq_none.mp hnone] at this
    rw [apply_search_filter, if_neg hcond]
    cases hcc : concat_and_search_term
        ((m.foldl (search_step fts ff sf) (Option.none, Option.none)).1)
        ((m.foldl (search_step fts ff sf) (Option.none, Option.none)).2) <;>
      simp [hcc]

/-- Witness for C10: an unmapped key `'bogus'` makes the search fail. -/
theorem invalid_field_filter_spec_witness :
    apply_search_filter {} [("name", [ColEntry.col ⟨"name", ColType.stringLike⟩])]
      Option.none [("bogus", "x")] [] = Except.error "Invalid field to filter" :=
  (invalid_field_filter_spec {} [("name", [ColEntry.col ⟨"name", ColType.stringLike⟩])]
      Option.none [("bogus", "x")] []).1.mp ⟨("bogus", "x"), by decide, by decide⟩

theorem column_term_not_direct (attrName : String) (ff : List (String × String))
    (sf : List String) (ls : String) (ce : ColEntry) :
    column_term false attrName ff sf ls ce =
      (entryToCol ce).map (fun c => SqlFilter.like c ls) := by
  cases ce <;> simp [column_term, entryToCol]

theorem inner_fold_fts_eval (v : Valuation) (attrName : String) (ff : List (String × String))
    (sf : List String) (ls : String) (cols : List ColEntry) (a : Option SqlFilter) :
    optEval v (cols.foldl
      (fun acc col => concat_or_search_term acc (column_term false attrName ff sf ls col)) a) =
      (optEval v a || (cols.filterMap entryToCol).any (fun c => v.likeV c ls)) := by
  induction cols generalizing a with
  | nil => simp
  | cons hd tl ih =>
    cases hd with
    | label s =>
      rw [List.foldl_cons,
        show column_term false attrName ff sf ls (ColEntry.label s) = Option.none from rfl,
        concat_or_none_right, ih]
      simp [entryToCol]
    | col c =>
      rw [List.foldl_cons,
        show column_term false attrName ff sf ls (ColEntry.col c) =
          some (SqlFilter.like c ls) from by simp [column_term],
        ih, optEval_concat_or]
      simp [entryToCol, optEval, SqlFilter.eval, Bool.or_assoc]

theorem inner_fold_fts_none (attrName : String) (ff : List (String × String))
    (sf : List String) (ls : String) (cols : List ColEntry) (a : Option SqlFilter) :
    (cols.foldl
      (fun acc col => concat_or_search_term acc (column_term false attrName ff sf ls col)) a =
        Option.none) ↔
      (a = Option.none ∧ cols.filterMap entryToCol = []) := by
  induction cols generalizing a with
  | nil => simp
  | cons hd tl ih =>
    cases hd with
    | label s =>
      rw [List.foldl_cons,
        show column_term false attrName ff sf ls (ColEntry.label s) = Option.none from rfl,
        concat_or_none_right, ih]
      simp [entryToCol]
    | col c =>
      rw [List.foldl_cons,
        show column_term false attrName ff sf ls (ColEntry.col c) =
          some (SqlFilter.like c ls) from by simp [column_term],
        ih]
      simp [entryToCol, concat_or_eq_none_iff]

theorem search_step_fts_only (s : String) (hs : s ≠ "") (sf : List String)
    (acc : Option SqlFilter × Option SqlFilter) (entry : String × List ColEntry) :
    search_step (some s) [] sf acc entry =
      (concat_or_search_term acc.1
        (entry.2.foldl
          (fun a col =>
            concat_or_search_term a (column_term false entry.1 [] sf ("%" ++ s ++ "%") col))
          Option.none),
       acc.2) := by
  simp [search_step, truthyStr, hs, List.lookup]

theorem outer_fold_fts_snd (s : String) (hs : s ≠ "") (sf : List String)
    (m : List (String × List ColEntry)) (acc : Option SqlFilter × Option SqlFilter) :
    (m.foldl (search_step (some s) [] sf) acc).2 = acc.2 := by
  induction m generalizing acc with
  | nil => rfl
  | cons hd tl ih => rw [List.foldl_cons, search_step_fts_only s hs, ih]

theorem outer_fold_fts_eval (v : Valuation) (s : String) (hs : s ≠ "") (sf : List String)
    (m : List (String × List ColEntry)) (acc : Option SqlFilter × Option SqlFilter) :
    optEval v (m.foldl (search_step (some s) [] sf) acc).1 =
      (optEval v acc.1 || (nonLabelCols m).any (fun c => v.likeV c ("%" ++ s ++ "%"))) := by
  induction m generalizing acc with
  | nil => simp [nonLabelCols]
  | cons hd tl ih =>
    rw [List.foldl_cons, search_step_fts_only s hs, ih, optEval_concat_or,
      inner_fold_fts_eval]
    simp [nonLabelCols, optEval, Bool.or_assoc]

theorem outer_fold_fts_none (s : String) (hs : s ≠ "") (sf : List String)
    (m : List (String × List ColEntry)) (acc : Option SqlFilter × Option SqlFilter) :
    ((m.foldl (search_step (some s) [] sf) acc).1 = Option.none) ↔
      (acc.1 = Option.none ∧ nonLabelCols m = []) := by
  induction m generalizing acc with
  | nil => simp [nonLabelCols]
  | cons hd tl ih =>
    rw [List.foldl_cons, search_step_fts_only s hs]
    simp only [ih, concat_or_eq_none_iff, inner_fold_fts_none, nonLabelCols,
      List.flatMap_cons, List.append_eq_nil]
    tauto

/-- Claim C2: a non-empty free-text term, with no field filters, yields one
filter applied to the query; under every valuation it is satisfied exactly
when some configured non-label column matches `LIKE` with the term
wildcarded on both ends (the per-column patterns are OR-combined). -/
theorem fts_searches_all_columns (q : Query) (m : List (String × List ColEntry))
    (s : String) (sf : List String) (hs : s ≠ "") (hne : nonLabelCols m ≠ []) :
    ∃ F : SqlFilter,
      apply_search_filter q m (some s) [] sf = Except.ok (q.filter F) ∧
      ∀ v : Valuation,
        F.eval v = (nonLabelCols m).any (fun c => v.likeV c ("%" ++ s ++ "%")) := by
  have hsnd := outer_fold_fts_snd s hs sf m (Option.none, Option.none)
  have hnone := outer_fold_fts_none s hs sf m (Option.none, Option.none)
  obtain ⟨F, hF⟩ :
      ∃ F, (m.foldl (search_step (some s) [] sf) (Option.none, Option.none)).1 = some F := by
    rcases hfold : (m.foldl (search_step (some s) [] sf) (Option.none, Option.none)).1 with _ | F
    · exact absurd (hnone.mp hfold).2 hne
    · exact ⟨F, rfl⟩
  refine ⟨F, ?_, fun v => ?_⟩
  · have hmain : apply_search_filter q m (some s) [] sf =
        match concat_and_search_term
          ((m.foldl (search_step (some s) [] sf) (Option.none, Option.none)).1)
          ((m.foldl (search_step (some s) [] sf) (Option.none, Option.none)).2) with
        | some f => Except.ok (q.filter f)
        | Option.none => Except.ok q := by
      rw [apply_search_filter, if_neg (by simp)]
    rw [hmain, hF, hsnd, concat_and_none_right]
  · have hev := outer_fold_fts_eval v s hs sf m (Option.none, Option.none)
    rw [hF] at hev
    simpa [optEval] using hev

/-- Witness for C2: a one-column mapping searched with the term `'abc'`. -/
theorem fts_searches_all_columns_witness :
    ∃ F : SqlFilter,
      apply_search_filter {} [("name", [ColEntry.col ⟨"name", ColType.stringLike⟩])]
        (some "abc") [] [] = Except.ok (Query.filter {} F) ∧
      ∀ v : Valuation,
        F.eval v =
          (nonLabelCols [("name", [ColEntry.col ⟨"name", ColType.stringLike⟩])]).any
            (fun c => v.likeV c ("%" ++ "abc" ++ "%")) :=
  fts_searches_all_columns {} [("name", [ColEntry.col ⟨"name", ColType.stringLike⟩])]
    "abc" [] (by decide) (by decide)

/-- Claim C5: `get_or_create` returns the first record matching the keyword
filters with `False` and leaves the session unchanged, and otherwise builds
the instance from the non-clause keyword values updated with the defaults,
appends it to the session and returns it with `True`. -/
theorem get_or_create_spec (session : List PyRec) (defaults : Option PyRec) (kwargs : PyRec) :
    (∀ r, session.find? (recMatches kwargs) = some r →
      r ∈ session ∧ recMatches kwargs r = true ∧
      get_or_create session defaults kwargs = (session, r, false)) ∧
    ((∀ r ∈ session, recMatches kwargs r = false) →
      get_or_create session defaults kwargs =
        (session ++ [dictUpdate (kwargs.filter (fun kv => !kv.2.isClause)) (defaults.getD [])],
         dictUpdate (kwargs.filter (fun kv => !kv.2.isClause)) (defaults.getD []),
         true)) := by
  constructor
  · intro r h
    exact ⟨List.mem_of_find?_eq_some h, List.find?_some h, by simp [get_or_create, h]⟩
  · intro h
    have hnone : session.find? (recMatches kwargs) = Option.none := by
      rw [List.find?_eq_none]
      intro x hx
      simp [h x hx]
    simp [get_or_create, hnone]

/-- Witness for C5: creating in an empty session merges kwargs with the
defaults. -/
theorem get_or_create_spec_witness :
    get_or_create [] (some [("severity", KwVal.plain "high")]) [("name", KwVal.plain "vuln")] =
      ([[("name", KwVal.plain "vuln"), ("severity", KwVal.plain "high")]],
       [("name", KwVal.plain "vuln"), ("severity", KwVal.plain "high")], true) :=
  (get_or_create_spec [] (some [("severity", KwVal.plain "high")])
    [("name", KwVal.plain "vuln")]).2 (by simp)

/-- Claim C4: `get_unique_fields` yields the reflected unique-constraint
column sets of the instance's table, except that for object type
`'vulnerability'` (which the classes `Vulnerability`, `VulnerabilityWeb`
and `VulnerabilityCode` map to when `__tablename__` is absent) it yields
exactly the one hard-coded 10-column set; `get_conflict_object` then
queries the stored records and returns the first one whose values on those
unique columns equal the candidate's values. -/
theorem unique_fields_and_conflict_spec (inspector : String → List UniqueConstraint) :
    (∀ (inst : ModelInstance) (t : String), inst.tablename = some t → t ≠ "vulnerability" →
      get_unique_fields inspector inst =
        Except.ok ((inspector t).map UniqueConstraint.column_names)) ∧
    (∀ inst : ModelInstance,
      (inst.tablename = some "vulnerability" ∨
        (inst.tablename = Option.none ∧
          inst.className ∈ ["Vulnerability", "VulnerabilityWeb", "VulnerabilityCode"])) →
      get_unique_fields inspector inst = Except.ok [vulnerability_unique_columns]) ∧
    (∀ (recs : String → List DbRec) (attrs : List (String × PyValue))
        (vname vdesc vtype vmethod vparam vpath vweb : PyValue) (h sv wid : Int),
      vname ≠ PyValue.none → vdesc ≠ PyValue.none → vtype ≠ PyValue.none →
      vmethod ≠ PyValue.none → vparam ≠ PyValue.none → vpath ≠ PyValue.none →
      vweb ≠ PyValue.none → h ≠ 0 → sv ≠ 0 →
      get_conflict_object ⟨inspector, fun _ => vulnColumnsMeta, recs⟩
        ⟨some "vulnerability", "Vulnerability", attrs⟩
        [("name", vname), ("description", vdesc), ("type", vtype), ("method", vmethod),
         ("parameter_name", vparam), ("path", vpath), ("website", vweb),
         ("host_id", PyValue.int h), ("service_id", PyValue.int sv)]
        (some wid) Option.none =
      Except.ok ((recs "VulnerabilityGeneric").find? (fun r =>
        ([Cond.eqv "name" vname, Cond.eqv "description" vdesc, Cond.eqv "type" vtype,
          Cond.eqv "method" vmethod, Cond.eqv "parameter_name" vparam,
          Cond.eqv "path" vpath, Cond.eqv "website" vweb,
          Cond.eqv "workspace_id" (PyValue.int wid),
          Cond.eqv "host_id" (PyValue.int h),
          Cond.eqv "service_id" (PyValue.int sv)]).all (fun c => c.eval r)))) := by
  refine ⟨fun inst t h1 h2 => ?_, fun inst hv => ?_,
    fun recs attrs vname vdesc vtype vmethod vparam vpath vweb h sv wid
      hname hdesc htype hmethod hparam hpath hweb hh hsv => ?_⟩
  · simp [get_unique_fields, get_object_type_for, h1, h2, Bind.bind, Except.bind, pure,
      Except.pure]
  · rcases hv with hv | ⟨hnone, hmem⟩
    · simp [get_unique_fields, get_object_type_for, hv, Bind.bind, Except.bind, pure,
        Except.pure]
    · simp [get_unique_fields, get_object_type_for, hnone, hmem, Bind.bind, Except.bind,
        pure, Except.pure]
  · simp [get_conflict_object, get_unique_fields, get_object_type_for, vulnColumnsMeta,
      vulnerability_unique_columns, tableColumn, uniqueFieldValue, getattrOf,
      List.foldlM, List.lookup, PyValue.truthy, Bind.bind, Except.bind, pure,
      Except.pure, pyEndsWith, pyStrip, stripLeftChars,
      hname, hdesc, htype, hmethod, hparam, hpath, hweb, hh, hsv]
    intro hcontra
    exact absurd (by decide) hcontra

/-- Witness for C4: a concrete vulnerability candidate against a one-record
store; the stored record matches on all ten unique columns and is
returned. -/
theorem unique_fields_and_conflict_spec_witness :
    get_conflict_object
      ⟨fun _ => [], fun _ => vulnColumnsMeta,
       fun n => if n = "VulnerabilityGeneric" then
          [[("id", PyValue.int 7), ("workspace_id", PyValue.int 3),
            ("name", PyValue.str "sqli"), ("description", PyValue.str "d"),
            ("type", PyValue.str "vulnerability_web"), ("method", PyValue.str "GET"),
            ("parameter_name", PyValue.str "q"), ("path", PyValue.str "/x"),
            ("website", PyValue.str "w"), ("host_id", PyValue.int 1),
            ("service_id", PyValue.int 2)]]
        else []⟩
      ⟨some "vulnerability", "Vulnerability", []⟩
      [("name", PyValue.str "sqli"), ("description", PyValue.str "d"),
       ("type", PyValue.str "vulnerability_web"), ("method", PyValue.str "GET"),
       ("parameter_name", PyValue.str "q"), ("path", PyValue.str "/x"),
       ("website", PyValue.str "w"), ("host_id", PyValue.int 1),
       ("service_id", PyValue.int 2)]
      (some 3) Option.none =
    Except.ok (some
      [("id", PyValue.int 7), ("workspace_id", PyValue.int 3),
       ("name", PyValue.str "sqli"), ("description", PyValue.str "d"),
       ("type", PyValue.str "vulnerability_web"), ("method", PyValue.str "GET"),
       ("parameter_name", PyValue.str "q"), ("path", PyValue.str "/x"),
       ("website", PyValue.str "w"), ("host_id", PyValue.int 1),
       ("service_id", PyValue.int 2)]) :=
  (unique_fields_and_conflict_spec (fun _ => [])).2.2
    (fun n => if n = "VulnerabilityGeneric" then
        [[("id", PyValue.int 7), ("workspace_id", PyValue.int 3),
          ("name", PyValue.str "sqli"), ("description", PyValue.str "d"),
          ("type", PyValue.str "vulnerability_web"), ("method", PyValue.str "GET"),
          ("parameter_name", PyValue.str "q"), ("path", PyValue.str "/x"),
          ("website", PyValue.str "w"), ("host_id", PyValue.int 1),
          ("service_id", PyValue.int 2)]]
      else [])
    [] (PyValue.str "sqli") (PyValue.str "d") (PyValue.str "vulnerability_web")
    (PyValue.str "GET") (PyValue.str "q") (PyValue.str "/x") (PyValue.str "w")
    1 2 3 (by decide) (by decide) (by decide) (by decide) (by decide) (by decide)
    (by decide) (by decide) (by decide)

theorem modifyTable_lookup (db : DB) (n : String) (f : TableSt → TableSt) :
    (db.modifyTable n f).tables.lookup n = (db.tables.lookup n).map f := by
  obtain ⟨tables⟩ := db
  induction tables with
  | nil => rfl
  | cons hd tl ih =>
    obtain ⟨k, tv⟩ := hd
    simp only [DB.modifyTable] at *
    simp only [List.map_cons]
    by_cases h : k = n
    · subst h
      rw [if_pos rfl]
      simp [List.lookup, ih]
    · rw [if_neg (by simpa using h)]
      have hbeq : (n == k) = false := beq_eq_false_iff_ne.mpr (Ne.symm h)
      simp [List.lookup, hbeq, ih]

theorem lookup_append_singleton {β : Type} (r : List (String × β)) (k w : String) (x : β)
    (hk : k ≠ w) : (r ++ [(w, x)]).lookup k = r.lookup k := by
  induction r with
  | nil =>
    have hbeq : (k == w) = false := beq_eq_false_iff_ne.mpr hk
    simp [List.lookup, hbeq]
  | cons hd tl ih =>
    cases hbeq : (k == hd.1) <;> simp [List.lookup, hbeq, ih]

theorem lookup_append_singleton_self {β : Type} (r : List (String × β)) (w : String) (x : β)
    (hr : ∀ kv ∈ r, kv.1 ≠ w) : (r ++ [(w, x)]).lookup w = some x := by
  induction r with
  | nil => simp [List.lookup]
  | cons hd tl ih =>
    have hne : hd.1 ≠ w := hr hd (by simp)
    have hbeq : (w == hd.1) = false := by simp [Ne.symm hne]
    simp [List.lookup, hbeq]
    exact ih (fun kv hkv => hr kv (by simp [hkv]))

theorem col_append_other (r : DbRec) (w : String) (x : PyValue) (k : String) (hk : k ≠ w) :
    DbRec.col (r ++ [(w, x)]) k = r.col k := by
  unfold DbRec.col
  rw [lookup_append_singleton r k w x hk]

theorem map_setkey_id (r : DbRec) (w : String) (v : PyValue) (hr : ∀ kv ∈ r, kv.1 ≠ w) :
    r.map (fun kv => if kv.1 = w then (w, v) else kv) = r := by
  induction r with
  | nil => rfl
  | cons hd tl ih =>
    simp [hr hd (by simp), ih (fun kv hkv => hr kv (by simp [hkv]))]

theorem set_append_singleton (r : DbRec) (w : String) (x v : PyValue)
    (hr : ∀ kv ∈ r, kv.1 ≠ w) :
    DbRec.set (r ++ [(w, x)]) w v = r ++ [(w, v)] := by
  unfold DbRec.set
  rw [lookup_append_singleton_self r w x hr]
  simp only [Option.isSome_some, if_true, List.map_append, map_setkey_id r w v hr]
  simp

theorem filter_keys_ne (r : DbRec) (w : String) (hr : ∀ kv ∈ r, kv.1 ≠ w) :
    r.filter (fun kv => kv.1 ≠ w) = r := by
  induction r with
  | nil => rfl
  | cons hd tl ih =>
    rw [List.filter_cons, if_pos (by simpa using hr hd (by simp)),
      ih (fun kv hkv => hr kv (by simp [hkv]))]

theorem filter_colnames_ne (cols : List ColumnDef) (hc : ∀ c ∈ cols, c.name ≠ "weight") :
    cols.filter (fun c => c.name ≠ "weight") = cols := by
  induction cols with
  | nil => rfl
  | cons hd tl ih =>
    rw [List.filter_cons, if_pos (by simpa using hc hd (by simp)),
      ih (fun c h => hc c (by simp [h]))]

theorem filter_append_singleton (r : DbRec) (w : String) (x : PyValue)
    (hr : ∀ kv ∈ r, kv.1 ≠ w) :
    (r ++ [(w, x)]).filter (fun kv => kv.1 ≠ w) = r := by
  rw [List.filter_append, filter_keys_ne r w hr]
  simp

theorem update_row_step (r : DbRec) (x : PyValue) (n : String) (wt : Int)
    (hr : ∀ kv ∈ r, kv.1 ≠ "weight") :
    (if sqlEq ((r ++ [("weight", x)]).col "name") (PyValue.str n) then
       (r ++ [("weight", x)]).set "weight" (PyValue.int wt)
     else r ++ [("weight", x)]) =
    r ++ [("weight", if sqlEq (r.col "name") (PyValue.str n) then PyValue.int wt else x)] := by
  rw [col_append_other r "weight" x "name" (by decide)]
  by_cases h : sqlEq (r.col "name") (PyValue.str n) = true
  · rw [if_pos h, if_pos h, set_append_singleton r "weight" x _ hr]
  · rw [if_neg h, if_neg h]

theorem weight_value_cases (v : PyValue) :
    (if sqlEq v (PyValue.str "client") then PyValue.int 10
     else if sqlEq v (PyValue.str "pentester") then PyValue.int 20
     else if sqlEq v (PyValue.str "asset_owner") then PyValue.int 30
     else if sqlEq v (PyValue.str "admin") then PyValue.int 40
     else PyValue.none) = roleWeightValue v := by
  unfold roleWeightValue
  cases v with
  | str s =>
    by_cases h1 : s = "admin" <;> by_cases h2 : s = "asset_owner" <;>
      by_cases h3 : s = "pentester" <;> by_cases h4 : s = "client" <;>
      simp_all [sqlEq]
  | none => simp [sqlEq]
  | int n => simp [sqlEq]
  | obj o => simp [sqlEq]

theorem map_alter_id (cols : List ColumnDef) (hc : ∀ c ∈ cols, c.name ≠ "weight") :
    cols.map (fun c => if c.name = "weight" then { c with nullable := false } else c) = cols := by
  induction cols with
  | nil => rfl
  | cons hd tl ih =>
    simp [hc hd (by simp), ih (fun c h => hc c (by simp [h]))]

/-- Claim C8: `upgrade` of revision 384784872dc1 appends an integer,
finally non-nullable `weight` column to `faraday_role`, setting 40 for the
role named `admin`, 30 for `asset_owner`, 20 for `pentester`, 10 for
`client` (NULL otherwise); `downgrade` drops the column, so upgrade
followed by downgrade restores the prior table. -/
theorem migration_weight_spec (db : DB) (t : TableSt)
    (ht : db.tables.lookup "faraday_role" = some t)
    (hcol : ∀ c ∈ t.cols, c.name ≠ "weight")
    (hrow : ∀ r ∈ t.rows, ∀ kv ∈ r, kv.1 ≠ "weight") :
    (upgrade db).tables.lookup "faraday_role" =
      some ⟨t.cols ++ [⟨"weight", "Integer", false⟩],
            t.rows.map (fun r => r ++ [("weight", roleWeightValue (r.col "name"))])⟩ ∧
    (downgrade (upgrade db)).tables.lookup "faraday_role" = some t := by
  have hup : (upgrade db).tables.lookup "faraday_role" =
      some ⟨t.cols ++ [⟨"weight", "Integer", false⟩],
            t.rows.map (fun r => r ++ [("weight", roleWeightValue (r.col "name"))])⟩ := by
    simp only [upgrade, add_column, update_weight_where_name, alter_column_nullable,
      modifyTable_lookup, ht, Option.map_some']
    refine congrArg some ?_
    refine congrArg₂ TableSt.mk ?_ ?_
    · rw [List.map_append, map_alter_id t.cols hcol]
      simp
    · rw [List.map_map, List.map_map, List.map_map, List.map_map]
      refine List.map_congr_left ?_
      intro r hrmem
      have hr' : ∀ kv ∈ r, kv.1 ≠ "weight" := hrow r hrmem
      simp only [Function.comp]
      rw [update_row_step r PyValue.none "admin" 40 hr',
        update_row_step r _ "asset_owner" 30 hr',
        update_row_step r _ "pentester" 20 hr',
        update_row_step r _ "client" 10 hr',
        weight_value_cases]
  refine ⟨hup, ?_⟩
  simp only [downgrade, drop_column, modifyTable_lookup, hup, Option.map_some']
  refine congrArg some ?_
  refine congrArg₂ TableSt.mk ?_ ?_
  · rw [List.filter_append, filter_colnames_ne t.cols hcol]
    simp
  · rw [List.map_map]
    have : t.rows.map
        ((fun r => r.filter (fun kv => kv.1 ≠ "weight")) ∘
          (fun r => r ++ [("weight", roleWeightValue (DbRec.col r "name"))])) =
        t.rows.map (fun r => r) := by
      refine List.map_congr_left ?_
      intro r hrmem
      simp only [Function.comp]
      exact filter_append_singleton r "weight" _ (hrow r hrmem)
    rw [this, List.map_id']

/-- Witness for C8 on a two-role table. -/
theorem migration_weight_spec_witness :
    (upgrade ⟨[("faraday_role",
        ⟨[⟨"name", "String", false⟩],
         [[("name", PyValue.str "admin")], [("name", PyValue.str "auditor")]]⟩)]⟩).tables.lookup
      "faraday_role" =
      some ⟨[⟨"name", "String", false⟩, ⟨"weight", "Integer", false⟩],
            [[("name", PyValue.str "admin"), ("weight", PyValue.int 40)],
             [("name", PyValue.str "auditor"), ("weight", PyValue.none)]]⟩ ∧
    (downgrade (upgrade ⟨[("faraday_role",
        ⟨[⟨"name", "String", false⟩],
         [[("name", PyValue.str "admin")], [("name", PyValue.str "auditor")]]⟩)]⟩)).tables.lookup
      "faraday_role" =
      some ⟨[⟨"name", "String", false⟩],
            [[("name", PyValue.str "admin")], [("name", PyValue.str "auditor")]]⟩ :=
  migration_weight_spec
    ⟨[("faraday_role",
        ⟨[⟨"name", "String", false⟩],
         [[("name", PyValue.str "admin")], [("name", PyValue.str "auditor")]]⟩)]⟩
    ⟨[⟨"name", "String", false⟩],
     [[("name", PyValue.str "admin")], [("name", PyValue.str "auditor")]]⟩
    (by decide) (by decide) (by decide)

end Faraday
